import Mathlib

/-!
Shallow embedding of the notification delivery pipeline of the
Distributed-Notification-System repository, together with proofs of the
behavioural claims about it.

Times and delays are modelled as rationals (the Python code uses
`time.time()` floats and float delays; the claims only involve exact
arithmetic on them). Fallible operations are modelled as `Except` values,
and the side effects a consumer performs (HTTP calls, broker operations,
status reports) are recorded as an explicit effect trace.
-/

namespace Spec2Proof

/-! ## shared/circuit_breaker.py -/

/-- The three breaker states of `CircuitState` in shared/circuit_breaker.py. -/
inductive CircuitState where
  | closed
  | «open»
  | half_open
deriving DecidableEq

/-- The mutable state of a `CircuitBreaker` instance
(shared/circuit_breaker.py, `__init__`). -/
structure CircuitBreaker where
  failure_threshold : Nat
  recovery_timeout : ℚ
  failure_count : Nat
  last_failure_time : Option ℚ
  state : CircuitState
deriving DecidableEq

/-- A freshly constructed breaker: `failure_count = 0`,
`last_failure_time = None`, state CLOSED. -/
def mkCircuitBreaker (failure_threshold : Nat) (recovery_timeout : ℚ) : CircuitBreaker :=
  { failure_threshold := failure_threshold
    recovery_timeout := recovery_timeout
    failure_count := 0
    last_failure_time := none
    state := CircuitState.closed }

/-- `CircuitBreaker.on_success`. -/
def CircuitBreaker.on_success (cb : CircuitBreaker) : CircuitBreaker :=
  if cb.state = CircuitState.half_open then
    { cb with state := CircuitState.closed, failure_count := 0 }
  else if cb.state = CircuitState.closed then
    { cb with failure_count := 0 }
  else cb

/-- `CircuitBreaker.on_failure`: increments the counter, records the
failure time, and moves to OPEN once the counter reaches the threshold. -/
def CircuitBreaker.on_failure (cb : CircuitBreaker) (now : ℚ) : CircuitBreaker :=
  let cb1 := { cb with
    failure_count := cb.failure_count + 1
    last_failure_time := some now }
  if cb1.failure_count ≥ cb1.failure_threshold then
    { cb1 with state := CircuitState.«open» }
  else cb1

/-- Result of `CircuitBreaker.call`: the wrapped operation's result, its
re-raised exception, or the fail-fast "Circuit breaker is OPEN" exception. -/
inductive CallResult (E A : Type) where
  | ok (a : A)
  | err (e : E)
  | circuitOpen
deriving DecidableEq

/-- The breaker state in effect when the operation is invoked, `none` when
the call fails fast (the leading OPEN check in `CircuitBreaker.call`,
including the transition to HALF_OPEN once the recovery timeout elapsed). -/
def CircuitBreaker.admitted (cb : CircuitBreaker) (now : ℚ) : Option CircuitBreaker :=
  if cb.state = CircuitState.«open» ∧
      ¬ (now - (cb.last_failure_time.getD 0) > cb.recovery_timeout) then
    none
  else if cb.state = CircuitState.«open» then
    some { cb with state := CircuitState.half_open }
  else
    some cb

/-- `CircuitBreaker.call`: fail-fast check, then run the operation and
apply `on_success` / `on_failure`.  The wrapped operation is modelled as an
`Except` value; in the fail-fast branch it is not consulted at all. -/
def CircuitBreaker.call {E A : Type} (cb : CircuitBreaker) (now : ℚ)
    (op : Except E A) : CallResult E A × CircuitBreaker :=
  match cb.admitted now with
  | none => (CallResult.circuitOpen, cb)
  | some cb1 =>
    match op with
    | Except.ok a => (CallResult.ok a, cb1.on_success)
    | Except.error e => (CallResult.err e, cb1.on_failure now)

/-! ## shared/retry.py -/

/-- One pass of the `for attempt in range(max_retries + 1)` loop of
`retry_with_backoff` in shared/retry.py. `remaining` is
`max_retries - attempt`; the returned triple is (final result, the list of
sleeps performed via `time.sleep(min(delay, max_delay))`, the number of
invocations of the wrapped function).  `op i` is the outcome of the
`i`-th invocation. -/
def retry_go {E A : Type} (op : Nat → Except E A) (attempt : Nat) (remaining : Nat)
    (delay max_delay exponential_base : ℚ) : Except E A × List ℚ × Nat :=
  match op attempt with
  | Except.ok a => (Except.ok a, [], 1)
  | Except.error e =>
    match remaining with
    | 0 => (Except.error e, [], 1)
    | r + 1 =>
      let rest := retry_go op (attempt + 1) r (delay * exponential_base)
        max_delay exponential_base
      (rest.1, min delay max_delay :: rest.2.1, rest.2.2 + 1)

/-- `retry_with_backoff` from shared/retry.py: run the loop from attempt 0
with `delay = initial_delay`. -/
def retry_with_backoff {E A : Type} (op : Nat → Except E A) (max_retries : Nat)
    (initial_delay max_delay exponential_base : ℚ) : Except E A × List ℚ × Nat :=
  retry_go op 0 max_retries initial_delay max_delay exponential_base

/-! ## The channel consumers
(src/services/email_service/consumer.py, src/services/push_service/consumer.py,
src/services/email_service/http_client.py)

`process_message` is embedded as a function from the outcomes of its
collaborator calls (an environment) and the incoming `x-retry-count`
header to the trace of effects it performs: HTTP calls, the delivery send,
status reports, and the broker operations ack / nack / publish. -/

/-- An observable effect performed by a consumer while handling one
message.  `nackRequeue k` records the pair of client-side operations
`properties.headers["x-retry-count"] = k; basic_nack(requeue=True)`: `k`
is the value written into the callback's local `BasicProperties` copy.
That mutation is never transmitted to the broker (AMQP `basic.nack`
carries only delivery-tag/multiple/requeue); what the broker requeues is
modelled separately by `requeue_stored_header`. -/
inductive Effect where
  | httpGetUser
  | httpGetTemplate
  | httpRenderTemplate
  | send
  | reportStatus (status : String) (post_ok : Bool)
  | ack
  | nackRequeue (retry_header : Nat)
  | nackNoRequeue
  | publish (exchange : String) (routing_key : String)
deriving DecidableEq

/-- The user dict returned by `get_user`, with Python `.get` semantics:
missing keys are `none`; `email`/`push_token` are tested for Python
truthiness (absent or empty string is falsy); the `*_enabled` flags are
read with `.get(key, True)`. -/
structure PyUser where
  email : Option String
  email_enabled : Option Bool
  push_token : Option String
  push_enabled : Option Bool
deriving DecidableEq

/-- Python truthiness of an optional string: `None` and `""` are falsy. -/
def pyTruthyStr : Option String → Bool
  | none => false
  | some s => !(s == "")

/-- `HTTPClient.update_notification_status`
(src/services/email_service/http_client.py lines 77-91): performs the
status POST and swallows any exception (`except: logger.warning`), so it
always returns; its trace records the attempted report and whether the
POST succeeded. -/
def update_notification_status (status : String) (post_ok : Bool) : List Effect :=
  [Effect.reportStatus status post_ok]

/-- Outcomes of the email consumer's collaborator calls while processing
one message. `Except.error` models a raised exception (HTTP failure or
circuit-breaker fail-fast); `Except.ok none` models a `None` return.
`breaker_send` is the outcome of `self.circuit_breaker.call(send_email)`;
`report_ok s` says whether the status POST for status `s` reaches the
gateway with a 2xx. -/
structure EmailEnv where
  get_user : Except Unit (Option PyUser)
  get_template : Except Unit (Option Unit)
  render_template : Except Unit (Option Unit)
  breaker_send : Except Unit Bool
  report_ok : String → Bool

/-- The `try:` body of `EmailConsumer.process_message`
(src/services/email_service/consumer.py lines 57-112): the effect trace of
the body, and whether an exception escaped into the `except` handler. -/
def email_try_body (env : EmailEnv) : List Effect × Bool :=
  match env.get_user with
  | Except.error _ => ([Effect.httpGetUser], true)
  | Except.ok none => ([Effect.httpGetUser], true)
  | Except.ok (some u) =>
    if pyTruthyStr u.email = false then
      ([Effect.httpGetUser], true)
    else if u.email_enabled.getD true = false then
      ([Effect.httpGetUser, Effect.ack], false)
    else
      match env.get_template with
      | Except.error _ => ([Effect.httpGetUser, Effect.httpGetTemplate], true)
      | Except.ok none => ([Effect.httpGetUser, Effect.httpGetTemplate], true)
      | Except.ok (some _) =>
        match env.render_template with
        | Except.error _ =>
          ([Effect.httpGetUser, Effect.httpGetTemplate, Effect.httpRenderTemplate], true)
        | Except.ok none =>
          ([Effect.httpGetUser, Effect.httpGetTemplate, Effect.httpRenderTemplate], true)
        | Except.ok (some _) =>
          match env.breaker_send with
          | Except.error _ =>
            ([Effect.httpGetUser, Effect.httpGetTemplate, Effect.httpRenderTemplate,
              Effect.send], true)
          | Except.ok false =>
            ([Effect.httpGetUser, Effect.httpGetTemplate, Effect.httpRenderTemplate,
              Effect.send], true)
          | Except.ok true =>
            ([Effect.httpGetUser, Effect.httpGetTemplate, Effect.httpRenderTemplate,
              Effect.send] ++
              update_notification_status "delivered" (env.report_ok "delivered") ++
              [Effect.ack], false)

/-- The `except Exception` handler shared verbatim by
`EmailConsumer.process_message` (consumer.py lines 114-146) and
`PushConsumer.process_message` (consumer.py lines 113-141): report
`failed` best-effort, then if `retry_count < 3` write `retry_count + 1`
into the local `properties.headers` copy and nack with requeue (the
`nackRequeue` effect records the locally written value; it is not
transmitted to the broker, see `Effect` and `requeue_stored_header`),
else nack without requeue and republish the body to exchange
"notifications.direct" with routing key "failed". -/
def handle_failure (retry_header : Option Nat) (report_post_ok : Bool) : List Effect :=
  let retry_count := retry_header.getD 0
  update_notification_status "failed" report_post_ok ++
    (if retry_count < 3 then
      [Effect.nackRequeue (retry_count + 1)]
    else
      [Effect.nackNoRequeue, Effect.publish "notifications.direct" "failed"])

/-- `EmailConsumer.process_message`: run the try body; if it raised, run
the failure handler with the incoming `x-retry-count` header. -/
def process_message_email (env : EmailEnv) (retry_header : Option Nat) : List Effect :=
  let tb := email_try_body env
  if tb.2 then tb.1 ++ handle_failure retry_header (env.report_ok "failed") else tb.1

/-- Outcomes of the push consumer's collaborator calls (same shape as
`EmailEnv`; the push consumer reads `push_enabled` / `push_token`). -/
structure PushEnv where
  get_user : Except Unit (Option PyUser)
  get_template : Except Unit (Option Unit)
  render_template : Except Unit (Option Unit)
  breaker_send : Except Unit Bool
  report_ok : String → Bool

/-- The `try:` body of `PushConsumer.process_message`
(src/services/push_service/consumer.py lines 55-111). -/
def push_try_body (env : PushEnv) : List Effect × Bool :=
  match env.get_user with
  | Except.error _ => ([Effect.httpGetUser], true)
  | Except.ok none => ([Effect.httpGetUser], true)
  | Except.ok (some u) =>
    if u.push_enabled.getD true = false then
      ([Effect.httpGetUser, Effect.ack], false)
    else if pyTruthyStr u.push_token = false then
      ([Effect.httpGetUser], true)
    else
      match env.get_template with
      | Except.error _ => ([Effect.httpGetUser, Effect.httpGetTemplate], true)
      | Except.ok none => ([Effect.httpGetUser, Effect.httpGetTemplate], true)
      | Except.ok (some _) =>
        match env.render_template with
        | Except.error _ =>
          ([Effect.httpGetUser, Effect.httpGetTemplate, Effect.httpRenderTemplate], true)
        | Except.ok none =>
          ([Effect.httpGetUser, Effect.httpGetTemplate, Effect.httpRenderTemplate], true)
        | Except.ok (some _) =>
          match env.breaker_send with
          | Except.error _ =>
            ([Effect.httpGetUser, Effect.httpGetTemplate, Effect.httpRenderTemplate,
              Effect.send], true)
          | Except.ok false =>
            ([Effect.httpGetUser, Effect.httpGetTemplate, Effect.httpRenderTemplate,
              Effect.send], true)
          | Except.ok true =>
            ([Effect.httpGetUser, Effect.httpGetTemplate, Effect.httpRenderTemplate,
              Effect.send] ++
              update_notification_status "delivered" (env.report_ok "delivered") ++
              [Effect.ack], false)

/-- `PushConsumer.process_message`. -/
def process_message_push (env : PushEnv) (retry_header : Option Nat) : List Effect :=
  let tb := push_try_body env
  if tb.2 then tb.1 ++ handle_failure retry_header (env.report_ok "failed") else tb.1

/-- Whether an effect is a broker acknowledgement-discipline operation
(ack, nack, or publish). -/
def isBrokerOp : Effect → Bool
  | Effect.ack => true
  | Effect.nackRequeue _ => true
  | Effect.nackNoRequeue => true
  | Effect.publish _ _ => true
  | _ => false

/-- Number of publishes (to any exchange/routing key) in a trace. -/
def publishCount (fx : List Effect) : Nat :=
  (fx.filter fun e => match e with | Effect.publish _ _ => true | _ => false).length

/-- AMQP broker semantics of `basic_nack(requeue=True)`: the broker
requeues its own stored copy of the message, so the `x-retry-count`
header of the requeued message is the stored one; the callback's mutation
of its local `BasicProperties` copy is never sent to the broker. -/
def requeue_stored_header (stored : Option Nat) : Option Nat := stored

/-- The `x-retry-count` header carried by the n-th redelivery of a
message originally published with header `h`, when every delivery ends in
`basic_nack(requeue=True)`. -/
def header_after_redeliveries : Nat → Option Nat → Option Nat
  | 0, h => h
  | n + 1, h => header_after_redeliveries n (requeue_stored_header h)

/-- `QueueManager.publish` (queue_manager.py lines 64-72) publishes with
`BasicProperties(delivery_mode=2, content_type="application/json")` and
no headers: a freshly published pipeline message carries no
`x-retry-count` header. -/
def published_headers : Option Nat := none

/-! ## Queue topology
(src/services/api_gateway/queue_manager.py `QueueManager.initialize`,
and the `connect` methods of both consumers). -/

/-- One `queue_bind` declaration. -/
structure Binding where
  exchange : String
  queue : String
  routing_key : String
deriving DecidableEq

/-- The bindings declared by `QueueManager.initialize`
(queue_manager.py lines 41-51): email.queue and push.queue are bound;
failed.queue is declared (line 39) but never bound. -/
def gatewayBindings : List Binding :=
  [{ exchange := "notifications.direct", queue := "email.queue", routing_key := "email" },
   { exchange := "notifications.direct", queue := "push.queue", routing_key := "push" }]

/-- The bindings declared by `EmailConsumer.connect`
(email consumer.py line 43); failed.queue is declared (line 46) unbound. -/
def emailConsumerBindings : List Binding :=
  [{ exchange := "notifications.direct", queue := "email.queue", routing_key := "email" }]

/-- The bindings declared by `PushConsumer.connect`
(push consumer.py line 41); failed.queue is declared (line 44) unbound. -/
def pushConsumerBindings : List Binding :=
  [{ exchange := "notifications.direct", queue := "push.queue", routing_key := "push" }]

/-- Every binding declared anywhere in the system. -/
def allBindings : List Binding :=
  gatewayBindings ++ emailConsumerBindings ++ pushConsumerBindings

/-- AMQP direct-exchange routing: a basic_publish to `exchange` with
`routing_key` is delivered to exactly the queues bound to that exchange
with that routing key (an unroutable message is dropped). -/
def directRoute (bindings : List Binding) (exchange routing_key : String) : List String :=
  (bindings.filter fun b => b.exchange == exchange && b.routing_key == routing_key).map
    Binding.queue

/-- The exchange the consumers' DLQ republish targets
(consumer.py `ch.basic_publish(exchange="notifications.direct", ...)`). -/
def dlqPublishExchange : String := "notifications.direct"

/-- The routing key of the consumers' DLQ republish. -/
def dlqPublishRoutingKey : String := "failed"

/-! ## shared/idempotency.py -/

/-- The JSON value cached in Redis for an idempotency key, as the gateway
uses it: either the empty dict `{}` (falsy) or the stored result
`{"notification_id": ..., "status": ...}` (truthy). -/
inductive PyJson where
  | emptyDict
  | result (notification_id status : String)
deriving DecidableEq

/-- Python truthiness of the parsed cached value. -/
def PyJson.truthy : PyJson → Bool
  | PyJson.emptyDict => false
  | PyJson.result _ _ => true

/-- `IdempotencyManager.generate_key`. -/
def generate_key (request_id service : String) : String :=
  "idempotency:" ++ service ++ ":" ++ request_id

/-- The Redis keyspace used by the idempotency manager, as an association
list (TTL expiry is not modelled; both calls of a claim happen within it). -/
def store_get (st : List (String × PyJson)) (key : String) : Option PyJson :=
  (st.find? fun p => p.1 == key).map Prod.snd

/-- `IdempotencyManager.check_and_store`: if the key exists, return the
cached (parsed) value and leave the store unchanged; otherwise store the
given result under the key and return `none`. -/
def check_and_store (st : List (String × PyJson)) (request_id service : String)
    (result : PyJson) : Option PyJson × List (String × PyJson) :=
  let key := generate_key request_id service
  match store_get st key with
  | some cached => (some cached, st)
  | none => (none, (key, result) :: st)

/-- `IdempotencyManager.is_duplicate`: `redis.exists(key) > 0`. -/
def is_duplicate (st : List (String × PyJson)) (request_id service : String) : Bool :=
  (store_get st (generate_key request_id service)).isSome

/-! ## The ingress gate
(src/services/api_gateway/main.py `create_notification`). -/

/-- The persisted Notification row, restricted to the fields the claims
mention (api_gateway/models.py `Notification`). -/
structure DbNotification where
  id : String
  user_id : String
  status : String
  error : Option String
deriving DecidableEq

/-- The gateway's persistent state visible to `create_notification`: the
Redis idempotency keyspace and the notifications table. -/
structure GatewayState where
  idem_store : List (String × PyJson)
  records : List DbNotification
deriving DecidableEq

/-- A response from the gateway endpoint: `ResponseModel.success_response`
with `data = {"notification_id": ..., "status": ...}`, or
`ResponseModel.error_response`. -/
inductive GwResponse where
  | success (notification_id status message : String)
  | failure (error message : String)
deriving DecidableEq

/-- The `data` fields of a successful response. -/
def GwResponse.dataFields : GwResponse → Option (String × String)
  | GwResponse.success nid st _ => some (nid, st)
  | GwResponse.failure _ _ => none

/-- Side effects of one `create_notification` call that the idempotent
path must not repeat: collaborator validations, the DB insert, and the
broker publish. -/
inductive GwEffect where
  | validateUser
  | validateTemplate
  | dbInsert (id : String)
  | publish (routing_key : String)
deriving DecidableEq

/-- Collaborator outcomes for one `create_notification` call.
`get_user`: raised exception (with its `str(e)`) or the truthiness of the
returned user data; `get_template`: raised, or the found template's
`notification_type` (`none` = not found); `queue_publish`: whether
`queue_manager.publish` raised. -/
structure GwEnv where
  get_user : Except String Bool
  get_template : Except String (Option String)
  queue_publish : Except String Unit

/-- The notification request body (shared/models.py
`NotificationRequest`), restricted to the fields the endpoint branches on. -/
structure NotifReq where
  notification_type : String
  user_id : String
  template_code : String
  request_id : Option String
deriving DecidableEq

/-- The validation / create / publish / cache tail of `create_notification`
(main.py lines 107-166), reached when the idempotency check did not return
a cached result. -/
def create_notification_rest (env : GwEnv) (st : GatewayState) (req : NotifReq)
    (request_id : String) : GwResponse × GatewayState × List GwEffect :=
  match env.get_user with
  | Except.error e =>
    (GwResponse.failure e "Failed to create notification", st, [GwEffect.validateUser])
  | Except.ok false =>
    (GwResponse.failure "User not found" "Notification creation failed", st,
      [GwEffect.validateUser])
  | Except.ok true =>
    match env.get_template with
    | Except.error e =>
      (GwResponse.failure e "Failed to create notification", st,
        [GwEffect.validateUser, GwEffect.validateTemplate])
    | Except.ok none =>
      (GwResponse.failure "Template not found" "Notification creation failed", st,
        [GwEffect.validateUser, GwEffect.validateTemplate])
    | Except.ok (some ttype) =>
      if ttype ≠ req.notification_type then
        (GwResponse.failure
          ("Template type mismatch. Expected " ++ req.notification_type)
          "Notification creation failed", st,
          [GwEffect.validateUser, GwEffect.validateTemplate])
      else
        let st1 : GatewayState :=
          { st with records :=
              { id := request_id, user_id := req.user_id,
                status := "pending", error := none } :: st.records }
        match env.queue_publish with
        | Except.error e =>
          (GwResponse.failure e "Failed to create notification", st1,
            [GwEffect.validateUser, GwEffect.validateTemplate,
             GwEffect.dbInsert request_id, GwEffect.publish req.notification_type])
        | Except.ok _ =>
          let cs := check_and_store st1.idem_store request_id "notification"
            (PyJson.result request_id "pending")
          (GwResponse.success request_id "pending" "Notification queued successfully",
            { st1 with idem_store := cs.2 },
            [GwEffect.validateUser, GwEffect.validateTemplate,
             GwEffect.dbInsert request_id, GwEffect.publish req.notification_type])

/-- `create_notification` (main.py lines 79-173): authorization check,
idempotency check (the duplicate path returns the cached result without
re-validating or re-publishing), then the validation / create / publish
tail.  `fresh_id` is the `uuid.uuid4()` generated when the request carries
no `request_id`. -/
def create_notification (env : GwEnv) (st : GatewayState) (req : NotifReq)
    (auth_user_id : String) (fresh_id : String) :
    GwResponse × GatewayState × List GwEffect :=
  let request_id := req.request_id.getD fresh_id
  if req.user_id ≠ auth_user_id then
    (GwResponse.failure "Unauthorized: You can only create notifications for yourself"
      "Notification creation failed", st, [])
  else if is_duplicate st.idem_store request_id "notification" then
    let cs := check_and_store st.idem_store request_id "notification" PyJson.emptyDict
    match cs.1 with
    | some cached =>
      if cached.truthy then
        (GwResponse.success request_id "pending"
          "Notification already processed (idempotent)",
          { st with idem_store := cs.2 }, [])
      else
        create_notification_rest env { st with idem_store := cs.2 } req request_id
    | none => create_notification_rest env { st with idem_store := cs.2 } req request_id
  else
    create_notification_rest env st req request_id

/-! ## The internal status endpoint
(src/services/api_gateway/main.py `update_notification_status_internal`,
lines 270-318). -/

/-- Update the first record with the given id (SQLAlchemy `.first()` on
the id filter, then mutate and commit). -/
def update_first (db : List DbNotification) (notification_id : String)
    (f : DbNotification → DbNotification) : List DbNotification :=
  match db with
  | [] => []
  | n :: rest =>
    if n.id == notification_id then f n :: rest
    else n :: update_first rest notification_id f

/-- The mutation the endpoint applies to the found record: the status is
overwritten unconditionally; the error column only when the supplied error
is truthy (`if status_update.error:`). -/
def apply_status_update (new_status : String) (err : Option String)
    (n : DbNotification) : DbNotification :=
  { n with
    status := new_status
    error := match err with
      | some s => if s == "" then n.error else some s
      | none => n.error }

/-- `update_notification_status_internal`: service-token check, record
lookup, then unconditional status overwrite. -/
def update_notification_status_internal (service_token x_service_token : String)
    (db : List DbNotification) (notification_id : String) (new_status : String)
    (err : Option String) : GwResponse × List DbNotification :=
  if x_service_token ≠ service_token then
    (GwResponse.failure "Unauthorized" "Invalid service token", db)
  else
    match db.find? (fun n => n.id == notification_id) with
    | none => (GwResponse.failure "Notification not found" "Status update failed", db)
    | some _ =>
      (GwResponse.success notification_id new_status "Status updated successfully",
        update_first db notification_id (apply_status_update new_status err))

/-! ## Lemmas about the retry loop -/

theorem retry_go_count_le {E A : Type} (op : Nat → Except E A) (a r : Nat)
    (d md b : ℚ) : (retry_go op a r d md b).2.2 ≤ r + 1 := by
  induction r generalizing a d with
  | zero =>
    unfold retry_go
    cases op a <;> simp
  | succ r ih =>
    unfold retry_go
    cases op a with
    | ok x => simp
    | error e =>
      simpa using Nat.succ_le_succ (ih (a + 1) (d * b))

theorem retry_go_all_fail {E A : Type} (op : Nat → Except E A) (f : Nat → E)
    (hop : ∀ i, op i = Except.error (f i)) (md b : ℚ) :
    ∀ (r a : Nat) (d : ℚ),
      retry_go op a r d md b =
        (Except.error (f (a + r)),
         (List.range r).map (fun i => min (d * b ^ i) md), r + 1) := by
  intro r
  induction r with
  | zero =>
    intro a d
    unfold retry_go
    rw [hop a]
    simp
  | succ r ih =>
    intro a d
    unfold retry_go
    rw [hop a]
    have h2 : (List.range (r + 1)).map (fun i => min (d * b ^ i) md)
        = min d md :: (List.range r).map (fun i => min (d * b * b ^ i) md) := by
      rw [List.range_succ_eq_map, List.map_cons, List.map_map]
      simp only [pow_zero, mul_one]
      refine congrArg _ (List.map_congr_left fun i _ => ?_)
      simp only [Function.comp_apply]
      congr 1
      rw [Nat.succ_eq_add_one, pow_succ]
      ring
    simp only [ih (a + 1) (d * b), h2]
    have h1 : a + 1 + r = a + (r + 1) := by omega
    simp [h1]

/-- C5: the retry wrapper with `initial_delay` d0, `base` b and
`max_retries` n invokes the operation at most n+1 times; when every
attempt fails it sleeps `min(d0 * b^(i-1), max_delay)` between attempt i
and i+1 (for d0 = 1, b = 2, n = 3: sleeps 1s, 2s, 4s) and then propagates
the final attempt's exception to the caller. -/
theorem c5_retry_backoff {E A : Type} (op : Nat → Except E A) (f : Nat → E)
    (n : Nat) (d0 md b : ℚ) (hop : ∀ i, op i = Except.error (f i)) :
    (∀ (op2 : Nat → Except E A), (retry_with_backoff op2 n d0 md b).2.2 ≤ n + 1) ∧
    retry_with_backoff op n d0 md b =
      (Except.error (f n), (List.range n).map (fun i => min (d0 * b ^ i) md), n + 1) ∧
    (retry_with_backoff op 3 1 60 2).2.1 = [1, 2, 4] := by
  refine ⟨fun op2 => retry_go_count_le op2 0 n d0 md b, ?_, ?_⟩
  · simpa [retry_with_backoff] using retry_go_all_fail op f hop md b n 0 d0
  · rw [retry_with_backoff, retry_go_all_fail op f hop 60 2 3 0 1]
    norm_num [List.range_succ]

theorem c5_retry_backoff_witness :
    (∀ i, (fun _ : Nat => (Except.error () : Except Unit Unit)) i =
      Except.error ((fun _ : Nat => ()) i)) ∧
    retry_with_backoff (fun _ : Nat => (Except.error () : Except Unit Unit)) 3 1 60 2 =
      (Except.error (), [1, 2, 4], 4) :=
  ⟨fun _ => rfl, by
    have h := (c5_retry_backoff (fun _ : Nat => (Except.error () : Except Unit Unit))
      (fun _ => ()) 3 1 60 2 (fun _ => rfl)).2.1
    rw [h]
    norm_num [List.range_succ]⟩

/-! ## Circuit breaker theorems -/

/-- C6: when the breaker is OPEN and the recovery timeout has not elapsed
since `last_failure_time`, `call` fails fast with the circuit-open
exception (the spec calls it `CircuitOpenError`), does not consult the
wrapped operation, and returns the breaker completely unchanged. -/
theorem c6_open_fail_fast {E A : Type} (cb : CircuitBreaker) (now : ℚ)
    (op : Except E A)
    (hst : cb.state = CircuitState.«open»)
    (ht : ¬ (now - cb.last_failure_time.getD 0 > cb.recovery_timeout)) :
    cb.call now op = (CallResult.circuitOpen, cb) := by
  unfold CircuitBreaker.call CircuitBreaker.admitted
  rw [if_pos ⟨hst, ht⟩]

def cbOpenW : CircuitBreaker :=
  { failure_threshold := 5, recovery_timeout := 60, failure_count := 5,
    last_failure_time := some 0, state := CircuitState.«open» }

theorem c6_open_fail_fast_witness :
    cbOpenW.state = CircuitState.«open» ∧
    ¬ ((30 : ℚ) - cbOpenW.last_failure_time.getD 0 > cbOpenW.recovery_timeout) ∧
    cbOpenW.call 30 (Except.ok ()) = ((CallResult.circuitOpen : CallResult Unit Unit), cbOpenW) :=
  ⟨rfl, by norm_num [cbOpenW], c6_open_fail_fast cbOpenW 30 (Except.ok ()) rfl
    (by norm_num [cbOpenW])⟩

/-- A breaker one failure short of its threshold, as produced by four
consecutive failures of a fresh breaker with `failure_threshold = 5`. -/
def cb7 : CircuitBreaker :=
  { failure_threshold := 5, recovery_timeout := 60, failure_count := 4,
    last_failure_time := some 3, state := CircuitState.closed }

/-- C7 counterexample: the failure that reaches the threshold transitions
the breaker to OPEN but does NOT reset the failure counter to zero
(`on_failure` only increments; the counter is 5, not 0). -/
theorem c7_counterexample :
    (cb7.on_failure 4).state = CircuitState.«open» ∧
    (cb7.on_failure 4).failure_count = 5 ∧
    (cb7.on_failure 4).failure_count ≠ 0 :=
  ⟨rfl, rfl, by decide⟩

/-- C7 amended: when the failure counter reaches `failure_threshold` (a
failure in CLOSED state), the breaker transitions to OPEN with the failure
counter equal to the incremented count (it is not reset to zero) and
`last_failure_time` recorded as the time of that failure. -/
theorem c7_open_transition (cb : CircuitBreaker) (now : ℚ)
    (_hclosed : cb.state = CircuitState.closed)
    (hth : cb.failure_count + 1 ≥ cb.failure_threshold) :
    (cb.on_failure now).state = CircuitState.«open» ∧
    (cb.on_failure now).failure_count = cb.failure_count + 1 ∧
    (cb.on_failure now).last_failure_time = some now := by
  unfold CircuitBreaker.on_failure
  rw [if_pos hth]
  exact ⟨rfl, rfl, rfl⟩

theorem c7_open_transition_witness :
    cb7.state = CircuitState.closed ∧ cb7.failure_count + 1 ≥ cb7.failure_threshold ∧
    ((cb7.on_failure 4).state = CircuitState.«open» ∧
     (cb7.on_failure 4).failure_count = cb7.failure_count + 1 ∧
     (cb7.on_failure 4).last_failure_time = some 4) :=
  ⟨rfl, by decide, c7_open_transition cb7 4 rfl (by decide)⟩

/-- Feed the breaker a sequence of failing calls at the given times. -/
def failTimes (cb : CircuitBreaker) : List ℚ → CircuitBreaker
  | [] => cb
  | t :: ts => failTimes ((cb.call t (Except.error () : Except Unit Unit)).2) ts

/-- C3: with `failure_threshold = 5`, starting CLOSED, 5 consecutive
failing calls put the breaker in OPEN; a 6th call before the recovery
timeout elapsed fails fast without consulting the operation and changes
nothing; the first call after the timeout goes through a HALF_OPEN
transition and invokes the operation; success closes the breaker, failure
reopens it. -/
theorem c3_breaker_transitions (T t1 t2 t3 t4 t5 t6 t7 : ℚ)
    (h6 : ¬ (t6 - t5 > T)) (h7 : t7 - t5 > T) :
    (failTimes (mkCircuitBreaker 5 T) [t1, t2, t3, t4, t5]).state =
      CircuitState.«open» ∧
    (∀ op : Except Unit Unit,
      (failTimes (mkCircuitBreaker 5 T) [t1, t2, t3, t4, t5]).call t6 op =
        (CallResult.circuitOpen, failTimes (mkCircuitBreaker 5 T) [t1, t2, t3, t4, t5])) ∧
    (failTimes (mkCircuitBreaker 5 T) [t1, t2, t3, t4, t5]).admitted t7 =
      some { failure_threshold := 5, recovery_timeout := T, failure_count := 5,
             last_failure_time := some t5, state := CircuitState.half_open } ∧
    (failTimes (mkCircuitBreaker 5 T) [t1, t2, t3, t4, t5]).call t7
        (Except.ok () : Except Unit Unit) =
      (CallResult.ok (),
       { failure_threshold := 5, recovery_timeout := T, failure_count := 0,
         last_failure_time := some t5, state := CircuitState.closed }) ∧
    (failTimes (mkCircuitBreaker 5 T) [t1, t2, t3, t4, t5]).call t7
        (Except.error () : Except Unit Unit) =
      (CallResult.err (),
       { failure_threshold := 5, recovery_timeout := T, failure_count := 6,
         last_failure_time := some t7, state := CircuitState.«open» }) := by
  have hfold : failTimes (mkCircuitBreaker 5 T) [t1, t2, t3, t4, t5] =
      { failure_threshold := 5, recovery_timeout := T, failure_count := 5,
        last_failure_time := some t5, state := CircuitState.«open» } := rfl
  rw [hfold]
  refine ⟨rfl, ?_, ?_, ?_, ?_⟩
  · intro op
    exact c6_open_fail_fast _ t6 op rfl (by simpa using h6)
  · simp [CircuitBreaker.admitted, h6, h7]
  · simp [CircuitBreaker.call, CircuitBreaker.admitted, h7, CircuitBreaker.on_success]
  · simp [CircuitBreaker.call, CircuitBreaker.admitted, h7, CircuitBreaker.on_failure]

theorem c3_breaker_transitions_witness :
    ¬ ((10 : ℚ) - 4 > 60) ∧ ((100 : ℚ) - 4 > 60) ∧
    (failTimes (mkCircuitBreaker 5 60) [0, 1, 2, 3, 4]).state = CircuitState.«open» ∧
    (failTimes (mkCircuitBreaker 5 60) [0, 1, 2, 3, 4]).call 10
        (Except.ok () : Except Unit Unit) =
      (CallResult.circuitOpen, failTimes (mkCircuitBreaker 5 60) [0, 1, 2, 3, 4]) ∧
    (failTimes (mkCircuitBreaker 5 60) [0, 1, 2, 3, 4]).call 100
        (Except.ok () : Except Unit Unit) =
      (CallResult.ok (),
       { failure_threshold := 5, recovery_timeout := 60, failure_count := 0,
         last_failure_time := some 4, state := CircuitState.closed }) ∧
    (failTimes (mkCircuitBreaker 5 60) [0, 1, 2, 3, 4]).call 100
        (Except.error () : Except Unit Unit) =
      (CallResult.err (),
       { failure_threshold := 5, recovery_timeout := 60, failure_count := 6,
         last_failure_time := some 100, state := CircuitState.«open» }) := by
  have h := c3_breaker_transitions 60 0 1 2 3 4 10 100 (by norm_num) (by norm_num)
  exact ⟨by norm_num, by norm_num, h.1, h.2.1 (Except.ok ()), h.2.2.2.1, h.2.2.2.2⟩

/-! ## DLQ topology -/

/-- C2 (code evaluated at the failing input): in the declared topology no
queue is bound to the direct exchange with the routing key "failed" that
the consumers' DLQ republish uses, so the republished message is routed to
no queue at all — in particular not to failed.queue — while the primary
routing keys do route (email.queue is bound by both the gateway and the
email consumer). -/
theorem c2_dlq_republish_unroutable :
    directRoute allBindings dlqPublishExchange dlqPublishRoutingKey = [] ∧
    "failed.queue" ∉ directRoute allBindings dlqPublishExchange dlqPublishRoutingKey ∧
    directRoute allBindings "notifications.direct" "email" =
      ["email.queue", "email.queue"] :=
  ⟨rfl, by simp [directRoute, allBindings, gatewayBindings, emailConsumerBindings,
    pushConsumerBindings, dlqPublishExchange, dlqPublishRoutingKey], rfl⟩

/-! ## Consumer lemmas -/

theorem email_try_body_no_broker (env : EmailEnv) :
    (email_try_body env).2 = false ∨
      ∀ e ∈ (email_try_body env).1, isBrokerOp e = false := by
  unfold email_try_body
  repeat' split
  all_goals simp [isBrokerOp, update_notification_status]

theorem push_try_body_no_broker (env : PushEnv) :
    (push_try_body env).2 = false ∨
      ∀ e ∈ (push_try_body env).1, isBrokerOp e = false := by
  unfold push_try_body
  repeat' split
  all_goals simp [isBrokerOp, update_notification_status]

theorem handle_failure_lt (r : Nat) (ro : Bool) (h : r < 3) :
    handle_failure (some r) ro =
      [Effect.reportStatus "failed" ro, Effect.nackRequeue (r + 1)] := by
  simp [handle_failure, update_notification_status, h]

theorem handle_failure_ge (r : Nat) (ro : Bool) (h : ¬ r < 3) :
    handle_failure (some r) ro =
      [Effect.reportStatus "failed" ro, Effect.nackNoRequeue,
       Effect.publish "notifications.direct" "failed"] := by
  simp [handle_failure, update_notification_status, h]

theorem count_eq_zero_of_no_broker {l : List Effect} (e : Effect)
    (hl : ∀ x ∈ l, isBrokerOp x = false) (he : isBrokerOp e = true) :
    l.count e = 0 :=
  List.count_eq_zero.mpr fun hm => by rw [hl e hm] at he; cases he

theorem publishCount_eq_zero_of_no_broker {l : List Effect}
    (hl : ∀ x ∈ l, isBrokerOp x = false) : publishCount l = 0 := by
  unfold publishCount
  rw [List.length_eq_zero, List.filter_eq_nil_iff]
  intro x hx
  have := hl x hx
  cases x <;> simp_all [isBrokerOp]

theorem publishCount_append (l1 l2 : List Effect) :
    publishCount (l1 ++ l2) = publishCount l1 + publishCount l2 := by
  simp [publishCount, List.filter_append]

/-- A persistently failing environment: the user service call raises on
every delivery. -/
def envFailE : EmailEnv :=
  { get_user := Except.error (), get_template := Except.ok none,
    render_template := Except.ok none, breaker_send := Except.ok false,
    report_ok := fun _ => true }

/-- The push analogue of `envFailE`. -/
def envFailP : PushEnv :=
  { get_user := Except.error (), get_template := Except.ok none,
    render_template := Except.ok none, breaker_send := Except.ok false,
    report_ok := fun _ => true }

/-- C1 (code evaluated at the failing input): take a message published by
the gateway (so with no `x-retry-count` header) whose processing fails on
every delivery.  Because `basic_nack(requeue=True)` requeues the broker's
stored message and the callback's local `properties.headers` mutation is
never transmitted, the n-th redelivery still carries no header for every
n, so `retry_count` reads 0 at every failure; both consumers take the
requeue branch every time (the locally written header value is always 1,
never 2 or 3), the nack-without-requeue / DLQ-publish branch is never
reached, and the message is never acked — the claimed 0→1→2→3 header
chain and 4th-failure DLQ publish never occur. -/
theorem c1_requeue_header_never_increments (n : Nat) :
    header_after_redeliveries n published_headers = none ∧
    process_message_email envFailE (header_after_redeliveries n published_headers) =
      [Effect.httpGetUser, Effect.reportStatus "failed" true, Effect.nackRequeue 1] ∧
    process_message_push envFailP (header_after_redeliveries n published_headers) =
      [Effect.httpGetUser, Effect.reportStatus "failed" true, Effect.nackRequeue 1] ∧
    Effect.nackNoRequeue ∉
      process_message_email envFailE (header_after_redeliveries n published_headers) ∧
    Effect.publish "notifications.direct" "failed" ∉
      process_message_email envFailE (header_after_redeliveries n published_headers) ∧
    Effect.nackRequeue 2 ∉
      process_message_email envFailE (header_after_redeliveries n published_headers) ∧
    Effect.nackNoRequeue ∉
      process_message_push envFailP (header_after_redeliveries n published_headers) ∧
    Effect.publish "notifications.direct" "failed" ∉
      process_message_push envFailP (header_after_redeliveries n published_headers) ∧
    Effect.ack ∉
      process_message_email envFailE (header_after_redeliveries n published_headers) := by
  have hh : header_after_redeliveries n published_headers = none := by
    induction n with
    | zero => rfl
    | succ m ih => exact ih
  rw [hh]
  refine ⟨rfl, rfl, rfl, ?_, ?_, ?_, ?_, ?_, ?_⟩ <;> decide

/-- The concrete message environment refuting C8: the user exists, has an
email address, but has `email_enabled = false`. -/
def envC8 : EmailEnv :=
  { get_user := Except.ok (some
      { email := some "user@example.com", email_enabled := some false,
        push_token := none, push_enabled := none }),
    get_template := Except.ok none, render_template := Except.ok none,
    breaker_send := Except.ok false, report_ok := fun _ => true }

/-- C8 counterexample: a message whose user has the channel disabled is
acknowledged and skipped — the consumer reports nothing, does not fail,
and never reaches the retry-vs-DLQ decision (consumer.py lines 74-77 ack
and return). -/
theorem c8_counterexample :
    process_message_email envC8 (some 0) = [Effect.httpGetUser, Effect.ack] ∧
    Effect.reportStatus "failed" true ∉ process_message_email envC8 (some 0) ∧
    Effect.reportStatus "failed" false ∉ process_message_email envC8 (some 0) ∧
    Effect.nackRequeue 1 ∉ process_message_email envC8 (some 0) ∧
    Effect.nackNoRequeue ∉ process_message_email envC8 (some 0) := by
  refine ⟨rfl, ?_, ?_, ?_, ?_⟩ <;> decide

/-- C8 amended: for every consumed message whose fetched user profile has
the message's channel disabled in preferences, the consumer acknowledges
the message and skips delivery: the trace is exactly the user fetch
followed by an ack — no failed report, no nack, no DLQ publish. -/
theorem c8_disabled_channel_skips (envE : EmailEnv) (envP : PushEnv)
    (uE uP : PyUser) (rE rP : Option Nat)
    (hEu : envE.get_user = Except.ok (some uE))
    (hEe : pyTruthyStr uE.email = true)
    (hEd : uE.email_enabled.getD true = false)
    (hPu : envP.get_user = Except.ok (some uP))
    (hPd : uP.push_enabled.getD true = false) :
    process_message_email envE rE = [Effect.httpGetUser, Effect.ack] ∧
    process_message_push envP rP = [Effect.httpGetUser, Effect.ack] := by
  constructor
  · simp [process_message_email, email_try_body, hEu, hEe, hEd]
  · simp [process_message_push, push_try_body, hPu, hPd]

/-- The push analogue of `envC8`. -/
def envC8P : PushEnv :=
  { get_user := Except.ok (some
      { email := none, email_enabled := none,
        push_token := some "tok", push_enabled := some false }),
    get_template := Except.ok none, render_template := Except.ok none,
    breaker_send := Except.ok false, report_ok := fun _ => true }

theorem c8_disabled_channel_skips_witness :
    envC8.get_user = Except.ok (some
      { email := some "user@example.com", email_enabled := some false,
        push_token := none, push_enabled := none }) ∧
    envC8P.get_user = Except.ok (some
      { email := none, email_enabled := none,
        push_token := some "tok", push_enabled := some false }) ∧
    process_message_email envC8 (some 2) = [Effect.httpGetUser, Effect.ack] ∧
    process_message_push envC8P (some 2) = [Effect.httpGetUser, Effect.ack] := by
  have h := c8_disabled_channel_skips envC8 envC8P _ _ (some 2) (some 2)
    rfl rfl rfl rfl rfl
  exact ⟨rfl, rfl, h.1, h.2⟩

/-- C9: when the delivery send succeeds, the message is acknowledged
exactly once even when the status report to the gateway fails: the
reporter swallows its own failure (http_client.py lines 77-91), the trace
continues to the ack, and no nack or DLQ publish happens. -/
theorem c9_report_isolation (envE : EmailEnv) (u : PyUser) (rh : Option Nat)
    (h1 : envE.get_user = Except.ok (some u))
    (h2 : pyTruthyStr u.email = true)
    (h3 : u.email_enabled.getD true = true)
    (h4 : envE.get_template = Except.ok (some ()))
    (h5 : envE.render_template = Except.ok (some ()))
    (h6 : envE.breaker_send = Except.ok true)
    (h7 : envE.report_ok "delivered" = false) :
    process_message_email envE rh =
      [Effect.httpGetUser, Effect.httpGetTemplate, Effect.httpRenderTemplate,
       Effect.send, Effect.reportStatus "delivered" false, Effect.ack] ∧
    (process_message_email envE rh).count Effect.ack = 1 ∧
    publishCount (process_message_email envE rh) = 0 ∧
    Effect.nackNoRequeue ∉ process_message_email envE rh ∧
    (∀ k, Effect.nackRequeue k ∉ process_message_email envE rh) := by
  have hfx : process_message_email envE rh =
      [Effect.httpGetUser, Effect.httpGetTemplate, Effect.httpRenderTemplate,
       Effect.send, Effect.reportStatus "delivered" false, Effect.ack] := by
    simp [process_message_email, email_try_body, h1, h2, h3, h4, h5, h6, h7,
      update_notification_status]
  refine ⟨hfx, ?_, ?_, ?_, ?_⟩ <;> rw [hfx]
  · simp [List.count_cons]
  · simp [publishCount, List.filter]
  · decide
  · intro k
    simp

/-- The environment for the C9 witness: send succeeds, the status POST
fails. -/
def envC9 : EmailEnv :=
  { get_user := Except.ok (some
      { email := some "user@example.com", email_enabled := some true,
        push_token := none, push_enabled := none }),
    get_template := Except.ok (some ()), render_template := Except.ok (some ()),
    breaker_send := Except.ok true, report_ok := fun _ => false }

theorem c9_report_isolation_witness :
    envC9.breaker_send = Except.ok true ∧ envC9.report_ok "delivered" = false ∧
    process_message_email envC9 (some 0) =
      [Effect.httpGetUser, Effect.httpGetTemplate, Effect.httpRenderTemplate,
       Effect.send, Effect.reportStatus "delivered" false, Effect.ack] ∧
    (process_message_email envC9 (some 0)).count Effect.ack = 1 := by
  have h := c9_report_isolation envC9 _ (some 0) rfl rfl rfl rfl rfl rfl rfl
  exact ⟨rfl, rfl, h.1, h.2.1⟩

/-! ## Ingress idempotency -/

/-- C4: two `create_notification` calls with the same `request_id`, the
second after the first completed successfully, return the same
`notification_id` and status; the second call creates no further
NotificationRecord (exactly one exists), performs no user/template
re-validation and no second publish (its effect list is empty). -/
theorem c4_idempotent_ingestion (env : GwEnv) (st0 : GatewayState) (req : NotifReq)
    (auth rid f1 f2 : String)
    (hrid : req.request_id = some rid)
    (hauth : req.user_id = auth)
    (hdup : is_duplicate st0.idem_store rid "notification" = false)
    (hrec : st0.records.filter (fun n => n.id == rid) = [])
    (huser : env.get_user = Except.ok true)
    (htempl : env.get_template = Except.ok (some req.notification_type))
    (hpub : env.queue_publish = Except.ok ()) :
    (create_notification env st0 req auth f1).1 =
      GwResponse.success rid "pending" "Notification queued successfully" ∧
    (create_notification env (create_notification env st0 req auth f1).2.1
        req auth f2).1 =
      GwResponse.success rid "pending" "Notification already processed (idempotent)" ∧
    GwResponse.dataFields
        (create_notification env (create_notification env st0 req auth f1).2.1
          req auth f2).1 =
      GwResponse.dataFields (create_notification env st0 req auth f1).1 ∧
    (create_notification env (create_notification env st0 req auth f1).2.1
        req auth f2).2.1.records =
      (create_notification env st0 req auth f1).2.1.records ∧
    ((create_notification env st0 req auth f1).2.1.records.filter
        (fun n => n.id == rid)).length = 1 ∧
    (create_notification env (create_notification env st0 req auth f1).2.1
        req auth f2).2.2 = [] := by
  have hkey : store_get st0.idem_store (generate_key rid "notification") = none := by
    rcases hsg : store_get st0.idem_store (generate_key rid "notification") with _ | v
    · rfl
    · rw [is_duplicate, hsg] at hdup
      cases hdup
  have e1 : create_notification env st0 req auth f1 =
      (GwResponse.success rid "pending" "Notification queued successfully",
       { idem_store := (generate_key rid "notification", PyJson.result rid "pending") ::
           st0.idem_store,
         records :=
           { id := rid, user_id := auth, status := "pending", error := none } ::
             st0.records },
       [GwEffect.validateUser, GwEffect.validateTemplate, GwEffect.dbInsert rid,
        GwEffect.publish req.notification_type]) := by
    simp [create_notification, create_notification_rest, hrid, hauth, is_duplicate,
      hkey, huser, htempl, hpub, check_and_store]
  have hsg1 : store_get ((generate_key rid "notification", PyJson.result rid "pending") ::
      st0.idem_store) (generate_key rid "notification") =
      some (PyJson.result rid "pending") := by
    simp [store_get]
  have e2 : create_notification env
      (create_notification env st0 req auth f1).2.1 req auth f2 =
      (GwResponse.success rid "pending" "Notification already processed (idempotent)",
       (create_notification env st0 req auth f1).2.1, []) := by
    rw [e1]
    simp [create_notification, hrid, hauth, is_duplicate, hsg1, check_and_store,
      PyJson.truthy]
  refine ⟨by rw [e1], by rw [e2], by rw [e2, e1]; rfl, by rw [e2], ?_, by rw [e2]⟩
  rw [e1]
  simp [List.filter_cons, hrec]

/-- Collaborators for the C4 witness: the user exists, the template exists
with the matching type, the publish succeeds. -/
def envC4 : GwEnv :=
  { get_user := Except.ok true, get_template := Except.ok (some "email"),
    queue_publish := Except.ok () }

/-- The request for the C4 witness. -/
def reqC4 : NotifReq :=
  { notification_type := "email", user_id := "u1", template_code := "welcome",
    request_id := some "r1" }

theorem c4_idempotent_ingestion_witness :
    reqC4.request_id = some "r1" ∧
    is_duplicate (GatewayState.mk [] []).idem_store "r1" "notification" = false ∧
    (create_notification envC4 (GatewayState.mk [] []) reqC4 "u1" "g1").1 =
      GwResponse.success "r1" "pending" "Notification queued successfully" ∧
    (create_notification envC4
        (create_notification envC4 (GatewayState.mk [] []) reqC4 "u1" "g1").2.1
        reqC4 "u1" "g2").1 =
      GwResponse.success "r1" "pending" "Notification already processed (idempotent)" ∧
    ((create_notification envC4 (GatewayState.mk [] []) reqC4 "u1" "g1").2.1.records.filter
        (fun n => n.id == "r1")).length = 1 ∧
    (create_notification envC4
        (create_notification envC4 (GatewayState.mk [] []) reqC4 "u1" "g1").2.1
        reqC4 "u1" "g2").2.2 = [] := by
  have h := c4_idempotent_ingestion envC4 (GatewayState.mk [] []) reqC4 "u1" "r1"
    "g1" "g2" rfl rfl rfl rfl rfl rfl rfl
  exact ⟨rfl, rfl, h.1, h.2.1, h.2.2.2.2.1, h.2.2.2.2.2⟩

/-! ## Internal status endpoint -/

theorem find?_update_first (db : List DbNotification) (notification_id : String)
    (f : DbNotification → DbNotification) (hf : ∀ n, (f n).id = n.id) :
    (update_first db notification_id f).find? (fun n => n.id == notification_id) =
      (db.find? (fun n => n.id == notification_id)).map f := by
  induction db with
  | nil => rfl
  | cons n rest ih =>
    by_cases h : (n.id == notification_id) = true
    · rw [update_first, if_pos h]
      have hfn : ((f n).id == notification_id) = true := by rw [hf]; exact h
      simp only [List.find?, hfn, h]
      rfl
    · rw [update_first, if_neg h]
      have hfn : (n.id == notification_id) = false := by simpa using h
      simp only [List.find?, hfn, cond_false]
      exact ih

/-- C10: the internal status endpoint enforces no status-transition
constraint: for every existing record and every call with the correct
service token, the stored status becomes exactly the supplied value,
whatever the record held before (in particular `failed` overwrites
`delivered`), and the failure handler of a consumer reports `failed`
before requeueing on every failed attempt. -/
theorem c10_status_overwrite (tok : String) (db : List DbNotification)
    (nid new_status : String) (err : Option String) (n0 : DbNotification)
    (hfound : db.find? (fun n => n.id == nid) = some n0)
    (r : Nat) (ro : Bool) (hr : r < 3) :
    ((update_notification_status_internal tok tok db nid new_status err).2.find?
        (fun n => n.id == nid)).map (fun n => n.status) = some new_status ∧
    (update_notification_status_internal tok tok db nid new_status err).1 =
      GwResponse.success nid new_status "Status updated successfully" ∧
    handle_failure (some r) ro =
      [Effect.reportStatus "failed" ro, Effect.nackRequeue (r + 1)] := by
  have hup : update_notification_status_internal tok tok db nid new_status err =
      (GwResponse.success nid new_status "Status updated successfully",
       update_first db nid (apply_status_update new_status err)) := by
    unfold update_notification_status_internal
    rw [if_neg (by simp), hfound]
  refine ⟨?_, by rw [hup], handle_failure_lt r ro hr⟩
  rw [hup]
  rw [find?_update_first db nid (apply_status_update new_status err) (fun n => rfl),
    hfound]
  rfl

/-- The database row for the C10 witness: a record already `delivered`. -/
def dbC10 : List DbNotification :=
  [{ id := "r1", user_id := "u1", status := "delivered", error := none }]

theorem c10_status_overwrite_witness :
    dbC10.find? (fun n => n.id == "r1") =
      some { id := "r1", user_id := "u1", status := "delivered", error := none } ∧
    ((update_notification_status_internal "tok" "tok" dbC10 "r1" "failed"
        (some "smtp error")).2.find? (fun n => n.id == "r1")).map
      (fun n => n.status) = some "failed" ∧
    handle_failure (some 0) true =
      [Effect.reportStatus "failed" true, Effect.nackRequeue 1] := by
  have h := c10_status_overwrite "tok" dbC10 "r1" "failed" (some "smtp error")
    { id := "r1", user_id := "u1", status := "delivered", error := none }
    rfl 0 true (by norm_num)
  exact ⟨rfl, h.1, h.2.2⟩

end Spec2Proof
